import Mathlib

/-!
Verification of the band-recommendation front-end (`src/App.tsx`).

The component is a single React view with four state slots (query text,
result list, loading flag, error message), one submit handler performing a
single HTTP POST, and a pure list renderer.  We embed it shallowly:

* `AppState` holds the four `useState` slots.
* `handleSubmit` is the submit handler as a pure transition: given the
  build-time `API_URL` value, the state at submission time, and the outcome
  of the (single possible) `fetch` call, it returns the request that was
  dispatched (if any), the state while that request was outstanding, and
  the state after the handler finished.
* Rendering helpers (`getFlagUrl`, the similarity / popularity caption
  fragments, the error banner) are embedded as functions from a `Band`
  record or the state to the rendered text.
* JavaScript string/number primitives used by the component are embedded
  executably: `jsTrim` for `String.prototype.trim`, `strToLower` for
  `String.prototype.toLowerCase`, `toFixed3` for `Number.prototype.toFixed(3)`
  (numbers are modelled as rationals).

JavaScript truthiness matters in four places and is embedded faithfully:
`!API_URL` is true for `undefined` and for the empty string, `!trimmed` is
true exactly for the empty string, `text || fallback` falls back exactly
when `text` is empty, and `err.message || "Unknown error"` likewise.
-/

/-- One recommendation record, the `Band` type of the source.  Numeric
fields (`popularity`, `score`) are modelled as rationals. -/
structure Band where
  id : Int
  name : String
  country : Option String := none
  country_code : Option String := none
  genre : Option String := none
  description : Option String := none
  decade : Option String := none
  spotify_url : Option String := none
  sample_url : Option String := none
  popularity : Option Rat := none
  score : Option Rat := none
deriving Repr, DecidableEq

/-- The parsed JSON body of a successful response: the handler only reads
its `results` field (`json.results ?? []`), which may be absent. -/
structure RespJson where
  results : Option (List Band) := none
deriving Repr, DecidableEq

/-- Outcome of the single `fetch` call:
* `reject msg` — the promise rejects (network failure); `msg` is the
  exception's `message` property;
* `response status bodyText json` — an HTTP response arrived with the given
  status, whose `text()` is `bodyText` and whose `json()` either parses to
  a `RespJson` (`Except.ok`) or throws a parse error with the given message
  (`Except.error`). -/
inductive FetchOutcome where
  | reject (message : String)
  | response (status : Nat) (bodyText : String) (json : Except String RespJson)
deriving Repr

/-- The four `useState` slots of the component. -/
structure AppState where
  query : String
  results : List Band
  loading : Bool
  error : Option String
deriving Repr, DecidableEq

/-- The JSON request body `JSON.stringify({ query: trimmed, limit: 10 })`,
modelled structurally. -/
structure ReqBody where
  query : String
  limit : Nat
deriving Repr, DecidableEq

/-- The network request issued by `fetch`, modelled by its url, method,
`Content-Type` header and body. -/
structure Request where
  url : String
  method : String
  contentType : String
  body : ReqBody
deriving Repr, DecidableEq

/-- Everything one run of the submit handler produces: the request it
dispatched (`none` when a local check failed first), the state while that
request was outstanding (`none` likewise), and the state when the handler
finished. -/
structure SubmitRun where
  request : Option Request
  pending : Option AppState
  finalState : AppState
deriving Repr, DecidableEq

/-- Characters stripped by `String.prototype.trim` (the ASCII whitespace
the component can meet; the full JS definition also strips rarer Unicode
space characters, which we do not model). -/
def jsWhitespace (c : Char) : Bool :=
  c = ' ' || c = '\t' || c = '\n' || c = '\r'

/-- Embedding of `String.prototype.trim`: strip leading and trailing
whitespace. -/
def jsTrim (s : String) : String :=
  ⟨((s.data.dropWhile jsWhitespace).reverse.dropWhile jsWhitespace).reverse⟩

/-- Embedding of `String.prototype.toLowerCase` (ASCII, which covers the
two-letter country codes it is applied to). -/
def strToLower (s : String) : String :=
  ⟨s.data.map Char.toLower⟩

/-- Decimal digits of `n`, most significant first, with explicit fuel so
that the definition is structurally recursive (the fuel `n + 1` always
suffices since `n / 10 < n` for `n ≥ 10`). -/
def natDigitsAux : Nat → Nat → List Char
  | 0, _ => []
  | fuel + 1, n =>
    if n < 10 then [Nat.digitChar n]
    else natDigitsAux fuel (n / 10) ++ [Nat.digitChar (n % 10)]

/-- Decimal rendering of a natural number (the integer part produced by
`toFixed`). -/
def natDecimal (n : Nat) : String :=
  ⟨natDigitsAux (n + 1) n⟩

/-- The `ToString` rendering a JS number with value `m ≥ 10^21` gets
(ECMA-262 `Number::toString`, the `n > 21` case): with `s` the decimal
digits of `m` stripped of trailing zeros (`k` of them) and `n` the total
digit count of `m`, print `s` (with a point after its first digit when
`k > 1`) followed by `e+` and the exponent `n - 1`.  Every double of
magnitude at least `2^53` — in particular at least `10^21` — is an
integer, so taking an integer argument loses nothing on JS-reachable
values. -/
def jsExpDecimal (m : Nat) : String :=
  let digits := natDigitsAux (m + 1) m
  let stripped := (digits.reverse.dropWhile (fun c => c = '0')).reverse
  match stripped with
  | [] => "0"
  | [d] => String.mk [d] ++ "e+" ++ natDecimal (digits.length - 1)
  | d :: ds =>
    String.mk [d] ++ "." ++ String.mk ds ++ "e+" ++ natDecimal (digits.length - 1)

/-- Embedding of `Number.prototype.toFixed(3)` on rationals, following the
ECMA-262 algorithm: for negative input emit a sign and continue with the
absolute value `x`; when `x ≥ 10^21` fall back to plain `ToString(x)`
(exponential form, e.g. `(1e21).toFixed(3) = "1e+21"`), applied to the
integer part `|num| / den`, exact for every JS-reachable value since such
doubles are integers; otherwise pick the integer `n` with `n / 10^3`
closest to `x`, ties to the larger `n` — that is, `n = ⌊x·1000 + 1/2⌋`,
computed on the canonical fraction as `⌊(2000·|num| + den) / (2·den)⌋` in
`Nat` — and print `n` with three digits after the point. -/
def toFixed3 (q : Rat) : String :=
  let sign := if q.num < 0 then "-" else ""
  if 10 ^ 21 * q.den ≤ q.num.natAbs then
    sign ++ jsExpDecimal (q.num.natAbs / q.den)
  else
    let n := (2000 * q.num.natAbs + q.den) / (2 * q.den)
    sign ++ natDecimal (n / 1000) ++ "." ++
      String.mk [Nat.digitChar (n / 100 % 10), Nat.digitChar (n / 10 % 10),
        Nat.digitChar (n % 10)]

/-- Embedding of `${band.popularity}` (JS number-to-string).  Only the
presence or absence of the popularity fragment is observed by the spec, so
the rational's canonical printer stands in for the JS number printer. -/
def ratDisplay (q : Rat) : String := toString q

/-- The `Response.ok` flag of the Fetch standard: status in the range
200..299. -/
def resOk (status : Nat) : Bool :=
  200 ≤ status && status ≤ 299

/-- The `catch` block of `handleSubmit`:
`setError(err.message || "Unknown error"); setResults([])`. -/
def catchErr (s : AppState) (message : String) : AppState :=
  { s with
    error := some (if message = "" then "Unknown error" else message),
    results := [] }

/-- Source `getFlagUrl`: `null` for a missing (or, by JS truthiness, empty)
country code, else the flagcdn template instantiated with the lowercased
code. -/
def getFlagUrl (countryCode : Option String) : Option String :=
  match countryCode with
  | none => none
  | some c =>
    if c = "" then none
    else some ("https://flagcdn.com/24x18/" ++ strToLower c ++ ".png")

/-- The `src` of the flag image rendered for a band: present exactly when
`getFlagUrl` returned a url (`{flagUrl && <img src={flagUrl} … />}`). -/
def flagImageSrc (b : Band) : Option String :=
  getFlagUrl b.country_code

/-- The `similarity: …` caption fragment: rendered exactly when `score` is
a number, as `` `similarity: ${band.score.toFixed(3)} ` `` (note the
trailing space from the template literal). -/
def similarityFragment (b : Band) : Option String :=
  b.score.map (fun q => "similarity: " ++ toFixed3 q ++ " ")

/-- The `(popularity: …)` caption fragment: rendered exactly when
`popularity` is a number. -/
def popularityFragment (b : Band) : Option String :=
  b.popularity.map (fun p => "(popularity: " ++ ratDisplay p ++ ")")

/-- The error banner `Error: {error}`: rendered exactly when `error` is a
non-empty string (`{error && (<div>…</div>)}`). -/
def errorBanner (s : AppState) : Option String :=
  match s.error with
  | none => none
  | some e => if e = "" then none else some ("Error: " ++ e)

/-- The initial state of the four `useState` hooks at mount. -/
def initialState : AppState :=
  { query := "Ghost", results := [], loading := false, error := none }

/-- The submit handler, line by line.  `apiUrl` is the build-time
`VITE_API_URL` (`none` for `undefined`); `s0` is the component state when
the form is submitted; `outcome` is what the single `fetch` call does.
Mirrors the source: clear the error; fail fast when `!API_URL` (undefined
or empty); fail fast when the trimmed query is empty; set loading, dispatch
the POST; on a non-ok response throw `text || "HTTP <status>"`; on an ok
response store `json.results ?? []`; in `catch` store the message and clear
the results; in `finally` clear the loading flag. -/
def handleSubmit (apiUrl : Option String) (s0 : AppState)
    (outcome : FetchOutcome) : SubmitRun :=
  let s := { s0 with error := none }
  match apiUrl with
  | none =>
    { request := none, pending := none,
      finalState := { s with error := some "VITE_API_URL is not configured." } }
  | some base =>
    if base = "" then
      { request := none, pending := none,
        finalState := { s with error := some "VITE_API_URL is not configured." } }
    else
      if jsTrim s.query = "" then
        { request := none, pending := none,
          finalState := { s with error := some "Please type a band name." } }
      else
        let s1 := { s with loading := true }
        let req : Request :=
          { url := base ++ "/recommendations", method := "POST",
            contentType := "application/json",
            body := { query := jsTrim s.query, limit := 10 } }
        let afterTry :=
          match outcome with
          | .reject msg => catchErr s1 msg
          | .response status bodyText json =>
            if resOk status then
              match json with
              | .ok j => { s1 with results := j.results.getD [] }
              | .error msg => catchErr s1 msg
            else
              catchErr s1
                (if bodyText = "" then "HTTP " ++ toString status else bodyText)
        { request := some req, pending := some s1,
          finalState := { afterTry with loading := false } }

/-- Whether a dispatched fetch outcome takes a failure path of the handler:
promise rejection, JSON parse failure, or a non-ok HTTP status. -/
def outcomeFails (o : FetchOutcome) : Bool :=
  match o with
  | .reject _ => true
  | .response status _ json =>
    !resOk status ||
      (match json with
       | .ok _ => false
       | .error _ => true)

/-- Ghost observer for the session invariant: the `results` array a
submission stores when it dispatches a request and that request succeeds
end to end (ok status, parsed body), and `none` on every other submission. -/
def submitSuccess (apiUrl : Option String) (s : AppState)
    (o : FetchOutcome) : Option (List Band) :=
  match apiUrl with
  | none => none
  | some base =>
    if base = "" then none
    else if jsTrim s.query = "" then none
    else
      match o with
      | .response status _ (.ok j) =>
        if resOk status then some (j.results.getD []) else none
      | _ => none

/-- A user-visible event of one session: editing the input (`setQuery` via
`onChange`) or submitting the form with a given fetch outcome. -/
inductive Event where
  | edit (text : String)
  | submit (outcome : FetchOutcome)
deriving Repr

/-- One session event applied to the state, paired with the ghost tracking
of the most recent successful response's `results` array. -/
def sessionStep (apiUrl : Option String) (acc : AppState × Option (List Band))
    (e : Event) : AppState × Option (List Band) :=
  match e with
  | .edit t => ({ acc.1 with query := t }, acc.2)
  | .submit o =>
    ((handleSubmit apiUrl acc.1 o).finalState,
     match submitSuccess apiUrl acc.1 o with
     | some rs => some rs
     | none => acc.2)

/-- Run a session from mount, tracking alongside the state the `results`
array of the most recent end-to-end successful submission, if any. -/
def sessionFold (apiUrl : Option String) (es : List Event) :
    AppState × Option (List Band) :=
  es.foldl (sessionStep apiUrl) (initialState, none)

/-- The component state after a session of events starting at mount. -/
def runSession (apiUrl : Option String) (es : List Event) : AppState :=
  (sessionFold apiUrl es).1

/-- The `results` array of the most recent successful response of a
session, if any response succeeded. -/
def lastSuccessResults (apiUrl : Option String) (es : List Event) :
    Option (List Band) :=
  (sessionFold apiUrl es).2

/-- A string consisting of a decimal point followed by exactly three
digits, preceded by material containing no decimal point (digits and
possibly a leading sign): the shape `toFixed(3)` output must have. -/
def threeDecimalsShape (s : String) : Prop :=
  ∃ pre frac : String,
    s = pre ++ "." ++ frac ∧ frac.length = 3 ∧
      (∀ c ∈ frac.data, c.isDigit = true) ∧
      (∀ c ∈ pre.data, c.isDigit = true ∨ c = '-')

/-- Digit characters produced by `Nat.digitChar` below 10 really are
digits. -/
theorem digitChar_isDigit {d : Nat} (h : d < 10) :
    (Nat.digitChar d).isDigit = true := by
  interval_cases d <;> decide

/-- Every character emitted by `natDigitsAux` is a digit, whatever the
fuel. -/
theorem natDigitsAux_digits (fuel : Nat) :
    ∀ n c, c ∈ natDigitsAux fuel n → c.isDigit = true := by
  induction fuel with
  | zero =>
    intro n c hc
    simp [natDigitsAux] at hc
  | succ f ih =>
    intro n c hc
    simp only [natDigitsAux] at hc
    by_cases h : n < 10
    · rw [if_pos h] at hc
      simp only [List.mem_singleton] at hc
      subst hc
      exact digitChar_isDigit h
    · rw [if_neg h] at hc
      rcases List.mem_append.mp hc with h1 | h2
      · exact ih _ _ h1
      · simp only [List.mem_singleton] at h2
        subst h2
        exact digitChar_isDigit (Nat.mod_lt _ (by omega))

/-- Every character of a `natDecimal` rendering is a digit. -/
theorem natDecimal_digits (n : Nat) :
    ∀ c ∈ (natDecimal n).data, c.isDigit = true := by
  intro c hc
  simp only [natDecimal] at hc
  exact natDigitsAux_digits (n + 1) n c hc

/-- For values of magnitude below `10^21` — that is, `|num| < 10^21·den`,
keeping `toFixed` out of its `ToString` fallback — the output of
`toFixed3` has the required shape: a decimal point with exactly three
digits after it and only digits (and possibly a sign) before it. -/
theorem toFixed3_shape (q : Rat) (h : q.num.natAbs < 10 ^ 21 * q.den) :
    threeDecimalsShape (toFixed3 q) := by
  unfold toFixed3 threeDecimalsShape
  rw [if_neg (not_le.mpr h)]
  refine ⟨_, _, rfl, rfl, ?_, ?_⟩
  · intro c hc
    simp only [String.mk, List.mem_cons, List.not_mem_nil, or_false] at hc
    rcases hc with h | h | h <;> subst h <;>
      exact digitChar_isDigit (Nat.mod_lt _ (by omega))
  · intro c hc
    rw [String.data_append] at hc
    rcases List.mem_append.mp hc with h1 | h2
    · by_cases hneg : q.num < 0
      · rw [if_pos hneg] at h1
        simp only [String.data] at h1
        right
        simpa using h1
      · rw [if_neg hneg] at h1
        simp at h1
    · left
      exact natDecimal_digits _ c h2

/-- A string of the `threeDecimalsShape` contains a decimal point, so a
rendering without one cannot have that shape. -/
theorem threeDecimalsShape_mem_point (s : String)
    (h : threeDecimalsShape s) : '.' ∈ s.data := by
  obtain ⟨pre, frac, hs, -, -, -⟩ := h
  subst hs
  rw [String.data_append, String.data_append]
  refine List.mem_append.mpr (Or.inl (List.mem_append.mpr (Or.inr ?_)))
  decide

/-- The fallback error message `"HTTP " ++ status` is never the empty
string, so the `err.message || "Unknown error"` fallback never replaces
it. -/
theorem http_fallback_ne_empty (status : Nat) :
    "HTTP " ++ toString status ≠ "" := by
  intro h
  have hl := congrArg String.length h
  rw [String.length_append] at hl
  have h5 : ("HTTP " : String).length = 5 := rfl
  have h0 : ("" : String).length = 0 := rfl
  omega

/-- Case analysis of the `results` slot after one run of the submit
handler: either the submission was not an end-to-end success, and the slot
is untouched (local failure) or cleared (failed request); or it was a
success and the slot holds exactly the response's array. -/
theorem handleSubmit_results_cases (u : Option String) (s : AppState)
    (o : FetchOutcome) :
    (submitSuccess u s o = none ∧
      ((handleSubmit u s o).finalState.results = s.results ∨
        (handleSubmit u s o).finalState.results = []))
  ∨ (∃ rs, submitSuccess u s o = some rs ∧
      (handleSubmit u s o).finalState.results = rs) := by
  cases u with
  | none => left; exact ⟨rfl, Or.inl rfl⟩
  | some base =>
    by_cases hb : base = ""
    · left
      constructor
      · simp [submitSuccess, hb]
      · left
        simp [handleSubmit, hb]
    · by_cases hq : jsTrim s.query = ""
      · left
        constructor
        · simp [submitSuccess, hb, hq]
        · left
          simp [handleSubmit, hb, hq]
      · cases o with
        | reject msg =>
          left
          constructor
          · simp [submitSuccess, hb, hq]
          · right
            simp [handleSubmit, hb, hq, catchErr]
        | response status bodyText json =>
          by_cases hok : resOk status = true
          · cases json with
            | ok j =>
              right
              refine ⟨j.results.getD [], ?_, ?_⟩
              · simp [submitSuccess, hb, hq, hok]
              · simp [handleSubmit, hb, hq, hok]
            | error msg =>
              left
              constructor
              · simp [submitSuccess, hb, hq, hok]
              · right
                simp [handleSubmit, hb, hq, hok, catchErr]
          · left
            constructor
            · cases json <;> simp [submitSuccess, hb, hq, hok]
            · right
              cases json <;> simp [handleSubmit, hb, hq, hok, catchErr]

/-- One session step preserves the invariant relating the `results` slot
and the ghost record of the most recent successful response. -/
theorem sessionStep_preserves (u : Option String)
    (acc : AppState × Option (List Band)) (e : Event)
    (h : acc.1.results = [] ∨ acc.2 = some acc.1.results) :
    (sessionStep u acc e).1.results = [] ∨
      (sessionStep u acc e).2 = some (sessionStep u acc e).1.results := by
  cases e with
  | edit t => simpa [sessionStep] using h
  | submit o =>
    rcases handleSubmit_results_cases u acc.1 o with ⟨hg, hr | hr⟩ | ⟨rs, hg, hr⟩
    · rcases h with h | h
      · left
        simp [sessionStep, hg, hr, h]
      · right
        simp [sessionStep, hg, hr, h]
    · left
      simp [sessionStep, hg, hr]
    · right
      simp [sessionStep, hg, hr]

/-- The invariant holds after folding any list of session events over any
accumulator satisfying it. -/
theorem sessionFold_inv_aux (u : Option String) (es : List Event) :
    ∀ acc : AppState × Option (List Band),
      (acc.1.results = [] ∨ acc.2 = some acc.1.results) →
      ((es.foldl (sessionStep u) acc).1.results = [] ∨
        (es.foldl (sessionStep u) acc).2 =
          some (es.foldl (sessionStep u) acc).1.results) := by
  induction es with
  | nil => intro acc h; simpa using h
  | cons e es ih =>
    intro acc h
    rw [List.foldl_cons]
    exact ih _ (sessionStep_preserves u acc e h)

/-- C1: for every submission that dispatches a request and gets a 2xx
response whose body parses as JSON, the handler replaces the result-list
state wholesale with the body's `results` field, and sets it to the empty
list when that field is absent. -/
theorem submit_ok_replaces_results (base : String) (s : AppState)
    (status : Nat) (bodyText : String) (j : RespJson)
    (hb : base ≠ "") (hq : jsTrim s.query ≠ "") (hok : resOk status = true) :
    (handleSubmit (some base) s
        (.response status bodyText (.ok j))).finalState.results
      = j.results.getD []
  ∧ (j.results = none →
      (handleSubmit (some base) s
          (.response status bodyText (.ok j))).finalState.results = []) := by
  constructor
  · simp [handleSubmit, hb, hq, hok]
  · intro hnone
    simp [handleSubmit, hb, hq, hok, hnone]

/-- Witness for C1: a concrete 200 response stores exactly the response's
band list. -/
theorem submit_ok_replaces_results_witness :
    (handleSubmit (some "http://api")
        { query := "Ghost", results := [], loading := false, error := none }
        (.response 200 ""
          (.ok { results := some [{ id := 1, name := "Opeth" }] }))).finalState.results
      = [{ id := 1, name := "Opeth" }] := by
  have h := submit_ok_replaces_results "http://api"
    { query := "Ghost", results := [], loading := false, error := none }
    200 "" { results := some [{ id := 1, name := "Opeth" }] }
    (by decide) (by decide) (by decide)
  exact h.1

/-- C2: for every submission that dispatches a request and gets a non-2xx
response, the error state becomes the response body text when non-empty
(shown as `Error: <body>`), or `HTTP <status>` when the body is empty
(shown as `Error: HTTP <status>`), and the result list is cleared. -/
theorem submit_http_error_sets_error (base : String) (s : AppState)
    (status : Nat) (bodyText : String) (json : Except String RespJson)
    (hb : base ≠ "") (hq : jsTrim s.query ≠ "")
    (hok : resOk status = false) :
    (bodyText ≠ "" →
      (handleSubmit (some base) s
          (.response status bodyText json)).finalState.error = some bodyText
      ∧ errorBanner (handleSubmit (some base) s
          (.response status bodyText json)).finalState
            = some ("Error: " ++ bodyText))
  ∧ (bodyText = "" →
      (handleSubmit (some base) s
          (.response status bodyText json)).finalState.error
        = some ("HTTP " ++ toString status)
      ∧ errorBanner (handleSubmit (some base) s
          (.response status bodyText json)).finalState
            = some ("Error: " ++ ("HTTP " ++ toString status)))
  ∧ (handleSubmit (some base) s
        (.response status bodyText json)).finalState.results = [] := by
  refine ⟨?_, ?_, ?_⟩
  · intro hbt
    constructor
    · simp [handleSubmit, hb, hq, hok, catchErr, hbt]
    · simp [handleSubmit, hb, hq, hok, catchErr, hbt, errorBanner]
  · intro hbt
    subst hbt
    constructor
    · simp [handleSubmit, hb, hq, hok, catchErr, http_fallback_ne_empty status]
    · simp [handleSubmit, hb, hq, hok, catchErr, errorBanner,
        http_fallback_ne_empty status]
  · simp [handleSubmit, hb, hq, hok, catchErr]

/-- Witness for C2: body `"rate limited"` on a 429 yields the banner
`Error: rate limited`; an empty body on a 500 yields `Error: HTTP 500`;
both clear the results. -/
theorem submit_http_error_sets_error_witness :
    (handleSubmit (some "http://api")
        { query := "Ghost", results := [{ id := 1, name := "Opeth" }],
          loading := false, error := none }
        (.response 429 "rate limited" (.error "x"))).finalState.error
      = some "rate limited"
  ∧ errorBanner (handleSubmit (some "http://api")
        { query := "Ghost", results := [], loading := false, error := none }
        (.response 500 "" (.ok {}))).finalState
      = some ("Error: " ++ ("HTTP " ++ toString 500))
  ∧ (handleSubmit (some "http://api")
        { query := "Ghost", results := [{ id := 1, name := "Opeth" }],
          loading := false, error := none }
        (.response 429 "rate limited" (.error "x"))).finalState.results = [] := by
  refine ⟨?_, ?_, ?_⟩
  · exact ((submit_http_error_sets_error "http://api"
      { query := "Ghost", results := [{ id := 1, name := "Opeth" }],
        loading := false, error := none }
      429 "rate limited" (.error "x")
      (by decide) (by decide) (by decide)).1 (by decide)).1
  · exact ((submit_http_error_sets_error "http://api"
      { query := "Ghost", results := [], loading := false, error := none }
      500 "" (.ok {})
      (by decide) (by decide) (by decide)).2.1 rfl).2
  · exact (submit_http_error_sets_error "http://api"
      { query := "Ghost", results := [{ id := 1, name := "Opeth" }],
        loading := false, error := none }
      429 "rate limited" (.error "x")
      (by decide) (by decide) (by decide)).2.2

/-- C4: with `VITE_API_URL` unset every submission fails fast: no request
is dispatched and the configuration error is stored and displayed,
whatever the query and whatever the network would have done. -/
theorem missing_api_url_fails_fast (s : AppState) (o : FetchOutcome) :
    (handleSubmit none s o).request = none
  ∧ (handleSubmit none s o).finalState.error
      = some "VITE_API_URL is not configured."
  ∧ errorBanner (handleSubmit none s o).finalState
      = some ("Error: " ++ "VITE_API_URL is not configured.") := by
  refine ⟨rfl, rfl, ?_⟩
  simp [handleSubmit, errorBanner]

/-- Counterexample to C3 as stated: a submission whose query trims to the
empty string while `VITE_API_URL` is also unset sets the configuration
error, not the validation error, so "the error state is set to the
validation error message" fails for this submission. -/
theorem empty_query_validation_cex :
    jsTrim "" = ""
  ∧ (handleSubmit none
        { query := "", results := [], loading := false, error := none }
        (.reject "boom")).finalState.error ≠ some "Please type a band name."
  ∧ (handleSubmit none
        { query := "", results := [], loading := false, error := none }
        (.reject "boom")).finalState.error
      = some "VITE_API_URL is not configured." := by
  refine ⟨rfl, ?_, rfl⟩
  decide

/-- C3 (amended): a submission whose query trims to the empty string never
dispatches a request; and when the API base address is configured
(non-empty), its error state is set to the validation message. -/
theorem empty_query_no_request (u : Option String) (base : String)
    (s : AppState) (o : FetchOutcome) (hq : jsTrim s.query = "") :
    (handleSubmit u s o).request = none
  ∧ (base ≠ "" →
      (handleSubmit (some base) s o).finalState.error
        = some "Please type a band name."
      ∧ errorBanner (handleSubmit (some base) s o).finalState
        = some ("Error: " ++ "Please type a band name.")) := by
  constructor
  · cases u with
    | none => rfl
    | some b =>
      by_cases hb : b = ""
      · simp [handleSubmit, hb]
      · simp [handleSubmit, hb, hq]
  · intro hb
    constructor
    · simp [handleSubmit, hb, hq]
    · simp [handleSubmit, hb, hq, errorBanner]

/-- Witness for C3 (amended): a whitespace-only query with a configured
base address dispatches nothing and yields the validation error. -/
theorem empty_query_no_request_witness :
    (handleSubmit (some "http://api")
        { query := "   ", results := [], loading := false, error := none }
        (.reject "boom")).request = none
  ∧ (handleSubmit (some "http://api")
        { query := "   ", results := [], loading := false, error := none }
        (.reject "boom")).finalState.error = some "Please type a band name." := by
  have h := empty_query_no_request (some "http://api") "http://api"
    { query := "   ", results := [], loading := false, error := none }
    (.reject "boom") (by decide)
  exact ⟨h.1, (h.2 (by decide)).1⟩

/-- C5: whenever the handler dispatches a request, the loading flag is
true in the state that holds while the request is outstanding and false in
the state after the handler settles, for every outcome (ok response,
non-2xx response, parse failure, network rejection); and when no request
is dispatched the loading flag is never touched. -/
theorem loading_during_request (u : Option String) (s : AppState)
    (o : FetchOutcome) :
    (∀ r, (handleSubmit u s o).request = some r →
      ∃ p, (handleSubmit u s o).pending = some p ∧ p.loading = true
        ∧ (handleSubmit u s o).finalState.loading = false)
  ∧ ((handleSubmit u s o).request = none →
      (handleSubmit u s o).pending = none
      ∧ (handleSubmit u s o).finalState.loading = s.loading) := by
  cases u with
  | none => exact ⟨fun r hr => by simp [handleSubmit] at hr, fun _ => ⟨rfl, rfl⟩⟩
  | some base =>
    by_cases hb : base = ""
    · refine ⟨fun r hr => ?_, fun _ => ?_⟩
      · simp [handleSubmit, hb] at hr
      · constructor <;> simp [handleSubmit, hb]
    · by_cases hq : jsTrim s.query = ""
      · refine ⟨fun r hr => ?_, fun _ => ?_⟩
        · simp [handleSubmit, hb, hq] at hr
        · constructor <;> simp [handleSubmit, hb, hq]
      · refine ⟨fun r hr => ?_, fun hn => ?_⟩
        · refine ⟨{ s with error := none, loading := true }, ?_, rfl, ?_⟩
          · simp [handleSubmit, hb, hq]
          · simp [handleSubmit, hb, hq]
        · simp [handleSubmit, hb, hq] at hn

/-- Witness for C5: a concrete dispatched submission has loading true
while pending and false after settlement. -/
theorem loading_during_request_witness :
    ∃ p, (handleSubmit (some "http://api")
        { query := "Ghost", results := [], loading := false, error := none }
        (.reject "net down")).pending = some p ∧ p.loading = true
      ∧ (handleSubmit (some "http://api")
        { query := "Ghost", results := [], loading := false, error := none }
        (.reject "net down")).finalState.loading = false := by
  exact (loading_during_request (some "http://api")
    { query := "Ghost", results := [], loading := false, error := none }
    (.reject "net down")).1 _ rfl

/-- C7: a submission that passes both local checks dispatches exactly the
request `POST {base}/recommendations` with JSON content type and body
`query = trimmed input, limit = 10`; and a request is dispatched exactly
when the local checks pass. -/
theorem request_shape (base : String) (s : AppState) (o : FetchOutcome) :
    (base ≠ "" → jsTrim s.query ≠ "" →
      (handleSubmit (some base) s o).request =
        some { url := base ++ "/recommendations", method := "POST",
               contentType := "application/json",
               body := { query := jsTrim s.query, limit := 10 } })
  ∧ (∀ u : Option String,
      ((handleSubmit u s o).request.isSome = true ↔
        ∃ b, u = some b ∧ b ≠ "" ∧ jsTrim s.query ≠ "")) := by
  constructor
  · intro hb hq
    simp [handleSubmit, hb, hq]
  · intro u
    cases u with
    | none =>
      simp [handleSubmit]
    | some b =>
      by_cases hb : b = ""
      · simp [handleSubmit, hb]
      · by_cases hq : jsTrim s.query = ""
        · simp [handleSubmit, hb, hq]
        · simp [handleSubmit, hb, hq]

/-- Witness for C7: the concrete request for base `http://api` and query
`" Ghost "` is a POST to `http://api/recommendations` with the trimmed
query and limit 10. -/
theorem request_shape_witness :
    (handleSubmit (some "http://api")
        { query := " Ghost ", results := [], loading := false, error := none }
        (.reject "x")).request =
      some { url := "http://api" ++ "/recommendations", method := "POST",
             contentType := "application/json",
             body := { query := jsTrim " Ghost ", limit := 10 } } := by
  exact (request_shape "http://api"
    { query := " Ghost ", results := [], loading := false, error := none }
    (.reject "x")).1 (by decide) (by decide)

/-- C6: the result list starts empty at mount; at any point of any session
it is either empty or exactly the `results` array of the most recent
successful response; a successful response replaces it wholesale,
independently of its previous value; and every failed response clears
it. -/
theorem results_list_invariant :
    initialState.results = []
  ∧ (∀ u es, (runSession u es).results = []
      ∨ lastSuccessResults u es = some (runSession u es).results)
  ∧ (∀ base s status bodyText j, base ≠ "" → jsTrim s.query ≠ "" →
      resOk status = true →
      (handleSubmit (some base) s
          (.response status bodyText (.ok j))).finalState.results
        = j.results.getD [])
  ∧ (∀ base s o, base ≠ "" → jsTrim s.query ≠ "" → outcomeFails o = true →
      (handleSubmit (some base) s o).finalState.results = []) := by
  refine ⟨rfl, ?_, ?_, ?_⟩
  · intro u es
    exact sessionFold_inv_aux u es (initialState, none) (Or.inl rfl)
  · intro base s status bodyText j hb hq hok
    simp [handleSubmit, hb, hq, hok]
  · intro base s o hb hq hf
    cases o with
    | reject msg => simp [handleSubmit, hb, hq, catchErr]
    | response status bodyText json =>
      by_cases hok : resOk status = true
      · cases json with
        | ok j => simp [outcomeFails, hok] at hf
        | error msg => simp [handleSubmit, hb, hq, hok, catchErr]
      · cases json <;> simp [handleSubmit, hb, hq, hok, catchErr]

/-- Witness for C6: a concrete session of one success then one network
failure satisfies the invariant, and a concrete failed response clears a
non-empty result list. -/
theorem results_list_invariant_witness :
    ((runSession (some "http://api")
        [.submit (.response 200 ""
            (.ok { results := some [{ id := 1, name := "Opeth" }] })),
         .submit (.reject "net down")]).results = []
      ∨ lastSuccessResults (some "http://api")
          [.submit (.response 200 ""
              (.ok { results := some [{ id := 1, name := "Opeth" }] })),
           .submit (.reject "net down")]
        = some ((runSession (some "http://api")
            [.submit (.response 200 ""
                (.ok { results := some [{ id := 1, name := "Opeth" }] })),
             .submit (.reject "net down")]).results))
  ∧ (handleSubmit (some "http://api")
        { query := "Ghost", results := [{ id := 1, name := "Opeth" }],
          loading := false, error := none } (.reject "x")).finalState.results
      = [] := by
  constructor
  · exact results_list_invariant.2.1 (some "http://api")
      [.submit (.response 200 ""
          (.ok { results := some [{ id := 1, name := "Opeth" }] })),
       .submit (.reject "net down")]
  · exact results_list_invariant.2.2.2 "http://api"
      { query := "Ghost", results := [{ id := 1, name := "Opeth" }],
        loading := false, error := none }
      (.reject "x") (by decide) (by decide) (by decide)

/-- C8: with a non-empty country code the flag url is the flagcdn template
instantiated with the lowercased code — for `DE` a url ending in
`/de.png` — and a band with no country code renders no flag image. -/
theorem flag_url_spec :
    (∀ c : String, c ≠ "" →
      getFlagUrl (some c)
        = some ("https://flagcdn.com/24x18/" ++ strToLower c ++ ".png"))
  ∧ getFlagUrl (some "DE") = some "https://flagcdn.com/24x18/de.png"
  ∧ (∃ pre, getFlagUrl (some "DE") = some (pre ++ "/de.png"))
  ∧ (∀ b : Band, b.country_code = none → flagImageSrc b = none) := by
  refine ⟨?_, by decide, ⟨"https://flagcdn.com/24x18", by decide⟩, ?_⟩
  · intro c hc
    simp [getFlagUrl, hc]
  · intro b hb
    simp [flagImageSrc, hb, getFlagUrl]

/-- Witness for C8: the template instance for `DE` and the absent-code
case, concretely. -/
theorem flag_url_spec_witness :
    getFlagUrl (some "DE")
      = some ("https://flagcdn.com/24x18/" ++ strToLower "DE" ++ ".png")
  ∧ flagImageSrc { id := 1, name := "Opeth" } = none := by
  exact ⟨flag_url_spec.1 "DE" (by decide), flag_url_spec.2.2.2 _ rfl⟩

/-- Counterexample to C9 as stated: the JSON-reachable score `1e21` is
rendered through `toFixed(3)`'s `ToString` fallback as `similarity: 1e+21`
— no decimal point, hence not three decimal places. -/
theorem score_three_decimals_cex :
    similarityFragment
        { id := 1, name := "X", score := some (mkRat (10 ^ 21) 1) }
      = some "similarity: 1e+21 "
  ∧ ¬ threeDecimalsShape (toFixed3 (mkRat (10 ^ 21) 1)) := by
  constructor
  · decide
  · intro h
    have hm := threeDecimalsShape_mem_point _ h
    have he : toFixed3 (mkRat (10 ^ 21) 1) = "1e+21" := by decide
    rw [he] at hm
    revert hm
    decide

/-- C9 (amended): a band with a numeric score renders the similarity
fragment with the score formatted by `toFixed(3)`; for scores of magnitude
below `10^21` that output has exactly three digits after its decimal point
(for larger magnitudes `toFixed` falls back to the number's default
`ToString` rendering); a band with neither a numeric score nor a numeric
popularity renders neither caption fragment; and score `0.12345` formats
as `0.123`. -/
theorem score_display_three_decimals :
    (∀ b q, b.score = some q →
      similarityFragment b = some ("similarity: " ++ toFixed3 q ++ " ")
      ∧ (q.num.natAbs < 10 ^ 21 * q.den → threeDecimalsShape (toFixed3 q)))
  ∧ (∀ b : Band, b.score = none → b.popularity = none →
      similarityFragment b = none ∧ popularityFragment b = none)
  ∧ toFixed3 (mkRat 12345 100000) = "0.123" := by
  refine ⟨?_, ?_, by decide⟩
  · intro b q hq
    exact ⟨by simp [similarityFragment, hq], fun h => toFixed3_shape q h⟩
  · intro b h1 h2
    exact ⟨by simp [similarityFragment, h1], by simp [popularityFragment, h2]⟩

/-- Witness for C9 (amended): the fragment and the three-decimals shape
for a concrete small-magnitude scored band, and the absence of both
fragments for a band with neither number. -/
theorem score_display_three_decimals_witness :
    similarityFragment
        { id := 1, name := "X", score := some (mkRat 12345 100000) }
      = some ("similarity: " ++ toFixed3 (mkRat 12345 100000) ++ " ")
  ∧ threeDecimalsShape (toFixed3 (mkRat 12345 100000))
  ∧ similarityFragment { id := 2, name := "Y" } = none := by
  refine ⟨(score_display_three_decimals.1 _ (mkRat 12345 100000) rfl).1,
    (score_display_three_decimals.1
      { id := 1, name := "X", score := some (mkRat 12345 100000) }
      (mkRat 12345 100000) rfl).2 (by decide), ?_⟩
  exact (score_display_three_decimals.2.1 _ rfl rfl).1

/-- C10: a submission that fails a local check changes only the error
slot — results, loading and query are untouched and no request is
dispatched — both when the base address is missing and when the trimmed
query is empty; and the configuration check runs before the validation
check, so when both fail the configuration error is stored. -/
theorem local_failure_frame :
    (∀ s o, (handleSubmit none s o).finalState.results = s.results
      ∧ (handleSubmit none s o).finalState.loading = s.loading
      ∧ (handleSubmit none s o).finalState.query = s.query
      ∧ (handleSubmit none s o).request = none)
  ∧ (∀ base s o, base ≠ "" → jsTrim s.query = "" →
      (handleSubmit (some base) s o).finalState.results = s.results
      ∧ (handleSubmit (some base) s o).finalState.loading = s.loading
      ∧ (handleSubmit (some base) s o).finalState.query = s.query
      ∧ (handleSubmit (some base) s o).request = none
      ∧ (handleSubmit (some base) s o).finalState.error
          = some "Please type a band name.")
  ∧ (∀ s o, jsTrim s.query = "" →
      (handleSubmit none s o).finalState.error
        = some "VITE_API_URL is not configured.") := by
  refine ⟨?_, ?_, ?_⟩
  · intro s o
    exact ⟨rfl, rfl, rfl, rfl⟩
  · intro base s o hb hq
    refine ⟨?_, ?_, ?_, ?_, ?_⟩ <;> simp [handleSubmit, hb, hq]
  · intro s o hq
    rfl

/-- Witness for C10: a whitespace-only query leaves concrete prior results
in place, and with the base address also missing the configuration error
wins. -/
theorem local_failure_frame_witness :
    (handleSubmit (some "http://api")
        { query := " ", results := [{ id := 1, name := "Opeth" }],
          loading := false, error := none } (.reject "x")).finalState.results
      = [{ id := 1, name := "Opeth" }]
  ∧ (handleSubmit none
        { query := "", results := [], loading := false, error := none }
        (.reject "x")).finalState.error
      = some "VITE_API_URL is not configured." := by
  refine ⟨?_, local_failure_frame.2.2
    { query := "", results := [], loading := false, error := none }
    (.reject "x") (by decide)⟩
  exact (local_failure_frame.2.1 "http://api"
    { query := " ", results := [{ id := 1, name := "Opeth" }],
      loading := false, error := none }
    (.reject "x") (by decide) (by decide)).1
